import Mathlib

/-!
Verification development for the VRED render-farm submission plugin's
worker-side render script and frame-range model.

The definitions below are shallow embeddings of the Python source:
  - `scene.py` (`FrameRange`),
  - `VRED_RenderScript_DeadlineCloud.py` (`DeadlineCloudRenderer`:
    path-mapping, tile-region planning, validation, and the render
    orchestration routine).
Python strings are modelled as Lean `String` (operations are implemented
over the underlying `List Char`, matching Python's code-point semantics on
the ASCII subset exercised here).  Python unbounded integers are `Int`;
floor division/modulo (`divmod`, `//`, `%`) is `Int.fdiv`/`Int.fmod`.
Python float division in the ray-tracing-region computation is modelled
exactly over `ℚ` (all values involved are exact).  The worker host is
modelled with POSIX path conventions (`os.sep = "/"; os.path.normpath =
posixpath.normpath`), matching the Linux worker environment targeted by
the render script.  Fallible Python code is modelled with `Except String`
(an `error` value corresponds to an uncaught Python exception).
-/

namespace VRED

/-! ## Python string primitives -/

/-- Python `str.replace(a, b)` for single-character `a`, `b`
    (used by the source only with `"\\"` and `"/"`). -/
def pyReplaceChar (a b : Char) (s : String) : String :=
  String.mk (s.data.map (fun c => if c = a then b else c))

/-- ASCII lower-casing of one character, the behavior of Python
    `str.lower` on the ASCII subset. -/
def pyCharLower (c : Char) : Char :=
  if 'A' ≤ c ∧ c ≤ 'Z' then Char.ofNat (c.toNat + 32) else c

/-- Python `str.lower` (ASCII subset). -/
def pyLower (s : String) : String :=
  String.mk (s.data.map pyCharLower)

/-- Python whitespace characters stripped by `str.strip()` (ASCII subset). -/
def pyIsSpace (c : Char) : Bool :=
  c = ' ' || c = '\t' || c = '\n' || c = '\r' || c = '\x0b' || c = '\x0c'

/-- Python `str.strip()` (ASCII whitespace). -/
def pyStrip (s : String) : String :=
  String.mk (((s.data.dropWhile pyIsSpace).reverse.dropWhile pyIsSpace).reverse)

/-- Python `s.startswith(p)`. -/
def pyStartswith (s p : String) : Bool :=
  List.isPrefixOf p.data s.data

/-- Python `s[n:]` (drop the first `n` code points). -/
def pySliceFrom (s : String) (n : Nat) : String :=
  String.mk (s.data.drop n)

/-! ## `posixpath.normpath` (the `os.path.normpath` of the Linux worker) -/

/-- Split a character list at every occurrence of `c`
    (the behavior of Python `str.split(c)`). -/
def splitChar (c : Char) (l : List Char) : List (List Char) :=
  l.foldr
    (fun a acc =>
      match acc with
      | g :: gs => if a = c then [] :: g :: gs else (a :: g) :: gs
      | [] => [[a]])
    [[]]

/-- One step of `posixpath.normpath`'s component scan.  `acc` holds the
    accepted components in reverse order. -/
def normStep (rooted : Bool) (acc : List (List Char)) (comp : List Char) :
    List (List Char) :=
  if comp = [] ∨ comp = ['.'] then acc
  else if comp ≠ ['.', '.'] ∨ (rooted = false ∧ acc = []) ∨ acc.head? = some ['.', '.'] then
    comp :: acc
  else
    acc.tail

/-- `posixpath.normpath` on the underlying character list. -/
def posixNormpathData (l : List Char) : List Char :=
  if l = [] then ['.']
  else
    let rooted := l.head? = some '/'
    let slashes : Nat :=
      if l.take 2 = ['/', '/'] ∧ l.take 3 ≠ ['/', '/', '/'] then 2
      else if rooted then 1 else 0
    let comps := splitChar '/' l
    let newComps := (comps.foldl (normStep (decide rooted)) []).reverse
    let joined := (List.intercalate ['/'] newComps)
    let res := List.replicate slashes '/' ++ joined
    if res = [] then ['.'] else res

/-- `os.path.normpath` on the POSIX worker host. -/
def posixNormpath (s : String) : String :=
  String.mk (posixNormpathData s.data)

/-- `os.path.join(a, b)` on the POSIX worker host. -/
def posixJoin (a b : String) : String :=
  if b.data.head? = some '/' then b
  else if a.data = [] ∨ a.data.getLast? = some '/' then String.mk (a.data ++ b.data)
  else String.mk (a.data ++ '/' :: b.data)

/-! ## Path-mapping rules (`PathMappingRule`, `map_path`,
      `load_path_mapping_rules`) -/

/-- Embedding of the `PathMappingRule` dataclass.  `source_path_format`
    is the raw string compared against the `PathFormat` `StrEnum` values
    `"WINDOWS"` / `"POSIX"`. -/
structure PathMappingRule where
  source_path_format : String
  source_path : String
  destination_path : String
deriving DecidableEq, Repr

/-- The prefix test of `DeadlineCloudRenderer.map_path` for one rule
    (lines 400-412 of the render script): both the input path and the
    rule's source path are `normpath`-ed, backslashes are turned into
    forward slashes, and the comparison is case-insensitive exactly for
    `"WINDOWS"`-format rules. -/
def ruleMatches (rule : PathMappingRule) (path : String) : Bool :=
  let in_path_norm := pyReplaceChar '\\' '/' (posixNormpath path)
  let source_path_norm := pyReplaceChar '\\' '/' (posixNormpath rule.source_path)
  (rule.source_path_format = "WINDOWS" &&
    pyStartswith (pyLower in_path_norm) (pyLower source_path_norm)) ||
  (rule.source_path_format = "POSIX" &&
    pyStartswith in_path_norm source_path_norm)

/-- The rewrite performed by `map_path` once a rule has matched
    (lines 413-416): the normalized destination is prepended, with
    `os.sep`, to the tail of the normalized input path beyond the length
    of the normalized source path, and the result is re-normalized. -/
def applyRule (rule : PathMappingRule) (path : String) : String :=
  let in_path := posixNormpath path
  let source_path := posixNormpath rule.source_path
  let dest_path := posixNormpath rule.destination_path
  pyReplaceChar '\\' '/'
    (posixNormpath (dest_path ++ "/" ++ pySliceFrom in_path source_path.data.length))

/-- The rule loop of `map_path` (lines 400-417): first matching rule is
    applied; if no rule matches the original input path is returned. -/
def mapPathRules (rules : List PathMappingRule) (path : String) : String :=
  match rules with
  | [] => path
  | rule :: rest =>
      if ruleMatches rule path then applyRule rule path
      else mapPathRules rest path

/-! ### The rules file (`load_path_mapping_rules`) -/

/-- Minimal JSON value model for the contents of the rules file. -/
inductive Json where
  | null : Json
  | jstr : String → Json
  | jnum : Int → Json
  | jbool : Bool → Json
  | jarr : List Json → Json
  | jobj : List (String × Json) → Json

/-- The state of the rules file as seen by `load_path_mapping_rules`:
    either `open()` raises (missing/unreadable file), or `json.load`
    raises (unparsable contents), or parsing yields a JSON value. -/
inductive RulesFileInput where
  | unreadable (msg : String) : RulesFileInput
  | unparsable (msg : String) : RulesFileInput
  | parsed (data : Json) : RulesFileInput

/-- Python `dict.get`: the value for `k`, or `None` when absent. -/
def jsonGet (kvs : List (String × Json)) (k : String) : Json :=
  match kvs.find? (fun kv => kv.fst = k) with
  | some kv => kv.snd
  | none => Json.null

/-- Python `k in dict` / keyword lookup: the value for `k` when present. -/
def jsonFind? (kvs : List (String × Json)) (k : String) : Option Json :=
  (kvs.find? (fun kv => kv.fst = k)).map Prod.snd

/-- The string stored in a `PathMappingRule` field for a given JSON
    value.  The dataclass declares `str` fields but performs no runtime
    type check, so in Python a non-string value is stored as-is and the
    construction succeeds; this String-typed embedding carries such a
    value as a schematic rendering (only the no-raise construction
    behavior of such records is relied upon by any theorem — in the
    program, using such a rule later would fail only inside `map_path`'s
    `os.path.normpath` call). -/
def jsonFieldStr (v : Json) : String :=
  match v with
  | Json.jstr s => s
  | Json.null => "None"
  | Json.jbool true => "True"
  | Json.jbool false => "False"
  | Json.jnum _ => "<int>"
  | Json.jarr _ => "<list>"
  | Json.jobj _ => "<dict>"

/-- `PathMappingRule(**mapping)`: the keyword expansion requires
    `mapping` to be a dict whose keys are exactly the three dataclass
    field names — a missing key raises `TypeError` (missing required
    argument), an extra key raises `TypeError` (unexpected keyword), and
    a non-dict element (e.g. a string produced by iterating a dict or a
    string) raises `TypeError` (argument after ** must be a mapping).
    Field values are NOT type-checked: any JSON value constructs. -/
def parseRule (j : Json) : Except String PathMappingRule :=
  match j with
  | Json.jobj kvs =>
      match jsonFind? kvs "source_path_format", jsonFind? kvs "source_path",
            jsonFind? kvs "destination_path" with
      | some f, some s, some d =>
          if kvs.length = 3 then
            Except.ok ⟨jsonFieldStr f, jsonFieldStr s, jsonFieldStr d⟩
          else Except.error "TypeError: unexpected keyword argument"
      | _, _, _ => Except.error "TypeError: missing required argument"
  | _ => Except.error "TypeError: rule record is not a mapping"

/-- The body of the `with` block of `load_path_mapping_rules` (lines
    380-385): the list comprehension
    `[PathMappingRule(**m) for m in data.get("path_mapping_rules")]`
    iterates whatever `.get` returned, per Python semantics: a list
    yields its elements, a dict yields its keys, a string yields its
    one-character substrings (so an EMPTY dict or string yields no
    elements and the load succeeds with an empty rule list), while
    `None` (absent key or null value), a number or a bool raise
    `TypeError: not iterable`.  A non-dict top-level document raises
    `AttributeError` at the `.get` call. -/
def parseRules (data : Json) : Except String (List PathMappingRule) :=
  match data with
  | Json.jobj kvs =>
      match jsonGet kvs "path_mapping_rules" with
      | Json.jarr items => items.mapM parseRule
      | Json.jobj rkvs => (rkvs.map (fun kv => Json.jstr kv.fst)).mapM parseRule
      | Json.jstr s => (s.data.map (fun ch => Json.jstr (String.mk [ch]))).mapM parseRule
      | Json.null => Except.error "TypeError: NoneType object is not iterable"
      | Json.jnum _ => Except.error "TypeError: int object is not iterable"
      | Json.jbool _ => Except.error "TypeError: bool object is not iterable"
  | _ => Except.error "AttributeError: loaded document has no attribute get"

/-- Embedding of `load_path_mapping_rules` (lines 368-389).  Only the
    `open()` call is guarded by `try/except`; a failure there logs and
    returns `False` leaving the cached rules unchanged.  Exceptions
    raised by `json.load` or by the rule-record construction in the
    `else` block propagate (modelled as `Except.error`). -/
def load_path_mapping_rules (file : RulesFileInput)
    (rules : List PathMappingRule) :
    Except String (Bool × List PathMappingRule) :=
  match file with
  | RulesFileInput.unreadable _ => Except.ok (false, rules)
  | RulesFileInput.unparsable msg => Except.error msg
  | RulesFileInput.parsed data =>
      match parseRules data with
      | Except.error e => Except.error e
      | Except.ok newRules => Except.ok (true, newRules)

/-- Embedding of `map_path` (lines 391-417) including the lazy rule
    loading: when the cached rule list is empty a load is attempted; a
    load returning `False` yields the input path unchanged; a raising
    load propagates.  Returns the mapped path together with the
    renderer's rule cache after the call. -/
def map_path (rules : List PathMappingRule) (file : RulesFileInput)
    (path : String) : Except String (String × List PathMappingRule) :=
  if rules.isEmpty then
    match load_path_mapping_rules file rules with
    | Except.error e => Except.error e
    | Except.ok (false, r) => Except.ok (path, r)
    | Except.ok (true, r) => Except.ok (mapPathRules r path, r)
  else
    Except.ok (mapPathRules rules path, rules)

/-- Modelled from the spec (§4.1/§8.1), for comparison with the code:
    `normalize(p)`, "the separator-normalized form of `p`" — the
    forward-slash-normalized form the spec claims `map_path` returns when
    no rule matches. -/
def specNormalize (p : String) : String :=
  pyReplaceChar '\\' '/' (posixNormpath p)

/-! ## `FrameRange` (scene.py) -/

/-- Embedding of the `FrameRange` dataclass of `scene.py`. -/
structure FrameRange where
  start : Int
  stop : Option Int := none
  step : Option Int := none
deriving DecidableEq, Repr

/-- Length of the Python builtin `range(start, stop, step)` sequence. -/
def pyRangeLen (start stop step : Int) : Nat :=
  if 0 < step then
    if start < stop then ((stop - start - 1).toNat / step.toNat) + 1 else 0
  else if step < 0 then
    if stop < start then ((start - stop - 1).toNat / (-step).toNat) + 1 else 0
  else 0

/-- The Python builtin `range(start, stop, step)` as a list. -/
def pyRange (start stop step : Int) : List Int :=
  (List.range (pyRangeLen start stop step)).map (fun k => start + step * (k : Int))

/-- Embedding of `FrameRange.__iter__` (scene.py lines 37-41):
    `range(self.start, stop + step, step)` where an absent `stop`
    defaults to `start` and an absent `step` defaults to `1`. -/
def FrameRange.toList (fr : FrameRange) : List Int :=
  let stop := fr.stop.getD fr.start
  let step := fr.step.getD 1
  pyRange fr.start (stop + step) step

/-! ## Tile-region planning (`init_render_region`) -/

/-- The tile pixel bounding box: 0-based, inclusive coordinates. -/
structure PixelBounds where
  left : Int
  right : Int
  bottom : Int
  top : Int
deriving DecidableEq, Repr

/-- Embedding of the pixel-bounds computation of `init_render_region`
    (render script lines 443-454): floor `divmod` of the image dimension
    by the tile count, bounds scaled by the 1-based tile index, and the
    division remainder added to the last column/row. -/
def computePixelBounds (imageWidth imageHeight numXTiles numYTiles
    tileNumberX tileNumberY : Int) : PixelBounds :=
  let deltaX := imageWidth.fdiv numXTiles
  let widthRemainder := imageWidth.fmod numXTiles
  let deltaY := imageHeight.fdiv numYTiles
  let heightRemainder := imageHeight.fmod numYTiles
  let left := deltaX * (tileNumberX - 1)
  let right := deltaX * tileNumberX - 1 +
    (if tileNumberX = numXTiles then widthRemainder else 0)
  let bottom := deltaY * (tileNumberY - 1)
  let top := deltaY * tileNumberY - 1 +
    (if tileNumberY = numYTiles then heightRemainder else 0)
  ⟨left, right, bottom, top⟩

/-- Pixel `(px, py)` lies inside the (inclusive) box `b`. -/
def pixelInBounds (b : PixelBounds) (px py : Int) : Prop :=
  b.left ≤ px ∧ px ≤ b.right ∧ b.bottom ≤ py ∧ py ≤ b.top

instance (b : PixelBounds) (px py : Int) : Decidable (pixelInBounds b px py) := by
  unfold pixelInBounds; infer_instance

/-- Embedding of the normalized ray-tracing region computation of
    `init_render_region` (lines 459-465): pixel bounds are divided by the
    image dimensions and passed to
    `setRaytracingRenderRegion(left, 1 - top, right, 1 - bottom)`, whose
    parameter order is `(xBegin, yBegin, xEnd, yEnd)`.  Python float
    division is modelled exactly over `ℚ`. -/
def raytracingRegionArgs (left right bottom top imageWidth imageHeight : Int) :
    ℚ × ℚ × ℚ × ℚ :=
  let l : ℚ := (left : ℚ) / (imageWidth : ℚ)
  let r : ℚ := (right : ℚ) / (imageWidth : ℚ)
  let b : ℚ := (bottom : ℚ) / (imageHeight : ℚ)
  let t : ℚ := (top : ℚ) / (imageHeight : ℚ)
  (l, 1 - t, r, 1 - b)

/-! ## Decimal rendering (Python `str(int)` inside f-strings) -/

/-- The ASCII digit character for `k < 10`. -/
def digitChar (k : Nat) : Char := Char.ofNat (48 + k)

/-- Decimal digit characters of a natural number, most significant
    first — the value of Python `str(n)` for `n ≥ 0`. -/
def natDecimal (n : Nat) : List Char :=
  if _h : n < 10 then [digitChar n]
  else natDecimal (n / 10) ++ [digitChar (n % 10)]
decreasing_by
  exact Nat.div_lt_self (by omega) (by omega)

/-- Python `str(i)` for an arbitrary integer, as a character list. -/
def intDecimal (i : Int) : List Char :=
  if i < 0 then '-' :: natDecimal (-i).toNat else natDecimal i.toNat

/-- Python `str(i)` / f-string interpolation of an integer. -/
def intStr (i : Int) : String := String.mk (intDecimal i)

/-- The numeric value of a list of decimal digit characters (used to
    invert `natDecimal`). -/
def digitsVal (l : List Char) : Nat :=
  l.foldl (fun a c => 10 * a + (c.toNat - 48)) 0

/-! ## Render parameters and the orchestration routine -/

/-- The render-parameter bag (`DynamicKeyValueObject`), restricted to the
    attributes the render script actually reads, with their observed
    types.  `OutputFileNameStem` models the source attribute holding the
    output file name's base component. -/
structure RenderParameters where
  OutputDir : String
  OutputFileNameStem : String
  OutputFormat : String
  RegionRendering : Bool
  TileNumberX : Int
  TileNumberY : Int
  NumXTiles : Int
  NumYTiles : Int
  RenderQuality : String
  SSQuality : String
  DLSSQuality : String
  AnimationType : String
  StartFrame : Int
  EndFrame : Int
  FrameStep : Int
  JobType : String
  SequenceName : String
  View : String
  AnimationClip : String
  RenderAnimation : Bool
  OverrideRenderPass : Bool
  ExportRenderPasses : Bool
  JobFailureOnWarnings : Bool
  GPURaytracing : Bool
  IncludeAlphaChannel : Bool
  PremultiplyAlpha : Bool
  TonemapHDR : Bool
  ImageWidth : Int
  ImageHeight : Int
  DPI : Int
deriving DecidableEq, Repr

/-- Key sets of the class-level dictionaries of `DeadlineCloudRenderer`. -/
def RENDER_QUALITY_KEYS : List String :=
  ["Analytic Low", "Analytic High", "Realistic Low", "Realistic High",
   "Raytracing", "NPR"]

def SS_QUALITY_KEYS : List String :=
  ["Off", "Low", "Medium", "High", "Ultra High"]

def DLSS_QUALITY_KEYS : List String :=
  ["Off", "Performance", "Balanced", "Quality", "Ultra Performance"]

def ANIMATION_TYPE_KEYS : List String := ["Clip", "Timeline"]

/-- `WANT_VRED_TERMINATION_ON_ERROR` class constant. -/
def WANT_VRED_TERMINATION_ON_ERROR : Bool := true

/-- One observable external call made by the orchestration routine.
    Renderer-configuration calls (render-setting setters, file-reference
    rewrites, queue/sequence runs) are tagged with the API name; the
    render trigger and the two session-termination calls get their own
    constructors. -/
inductive Call where
  | config (api : String) : Call
  | startRenderToFile : Call
  | terminateVred : Call
  | crashVred (code : Int) : Call
deriving DecidableEq, Repr

/-- Scene file reference node (`vrReferenceService.getSceneReferences`). -/
structure SceneRef where
  isSmart : Bool
  refPath : String
deriving DecidableEq, Repr

/-- The VRED-side environment the orchestration routine consults. -/
structure Env where
  sceneRefs : List SceneRef
  viewpoints : List String
  cameras : List String
  dlssSupported : Bool

/-- Embedding of `validate_render_settings` (lines 210-239): the four
    enum-membership checks in source order, then the frame-range check.
    `Except.error` models the raised `ValueError`. -/
def validate_render_settings (rp : RenderParameters) : Except String Unit :=
  if RENDER_QUALITY_KEYS.contains rp.RenderQuality = false then
    Except.error ("Invalid render quality: " ++ rp.RenderQuality)
  else if SS_QUALITY_KEYS.contains rp.SSQuality = false then
    Except.error ("Invalid Supersampling quality: " ++ rp.SSQuality)
  else if DLSS_QUALITY_KEYS.contains rp.DLSSQuality = false then
    Except.error ("Invalid DLSS quality: " ++ rp.DLSSQuality)
  else if ANIMATION_TYPE_KEYS.contains rp.AnimationType = false then
    Except.error ("Invalid animation type: " ++ rp.AnimationType)
  else if rp.EndFrame < rp.StartFrame then
    Except.error "StartFrame exceeds EndFrame"
  else
    Except.ok ()

/-- Embedding of `process_warning` (lines 495-503): logs, and raises
    exactly when `JobFailureOnWarnings` is set. -/
def process_warning (rp : RenderParameters) (message : String) :
    Except String Unit :=
  if rp.JobFailureOnWarnings then Except.error message else Except.ok ()

/-- Embedding of `init_camera_view` (lines 305-329).  Only the emitted
    external calls are recorded; a failed lookup funnels through
    `process_warning`. -/
def init_camera_view (rp : RenderParameters) (env : Env) :
    Except (String × List Call) (List Call) :=
  if rp.View = "" then Except.ok []
  else if env.viewpoints.contains rp.View then
    Except.ok [Call.config "setRenderView", Call.config "viewpointActivate"]
  else if env.cameras.contains rp.View then
    Except.ok [Call.config "setRenderView", Call.config "cameraActivate"]
  else
    match process_warning rp "Could not find the specified camera or viewpoint name" with
    | Except.error e => Except.error (e, [])
    | Except.ok _ => Except.ok []

/-- Embedding of `init_render_quality_modes` (lines 253-284).  The
    class-dictionary lookups raise `KeyError` on unknown keys; the
    partial call trace accumulated before a raise is carried in the
    error. -/
def init_render_quality_modes (rp : RenderParameters) (env : Env) :
    Except (String × List Call) (List Call) :=
  if RENDER_QUALITY_KEYS.contains rp.RenderQuality = false then
    Except.error ("KeyError: " ++ rp.RenderQuality, [])
  else if SS_QUALITY_KEYS.contains rp.SSQuality = false then
    Except.error ("KeyError: " ++ rp.SSQuality, [Call.config "setRenderQuality"])
  else if DLSS_QUALITY_KEYS.contains rp.DLSSQuality = false then
    Except.error ("KeyError: " ++ rp.DLSSQuality, [Call.config "setRenderQuality"])
  else if (rp.DLSSQuality ≠ "Off" : Bool) && env.dlssSupported then
    -- `dlss_quality_applied = True` branch
    if (rp.SSQuality ≠ "Off" : Bool) then
      match process_warning rp "DLSS is already enabled. Non-DLSS Supersampling will be ignored." with
      | Except.error e =>
          Except.error (e, [Call.config "setRenderQuality", Call.config "setDLSSQuality"])
      | Except.ok _ =>
          Except.ok [Call.config "setRenderQuality", Call.config "setDLSSQuality",
            Call.config "enableRaytracing", Call.config "setRaytracingMode"]
    else
      Except.ok [Call.config "setRenderQuality", Call.config "setDLSSQuality",
        Call.config "enableRaytracing", Call.config "setRaytracingMode"]
  else
    -- DLSS off or unsupported
    if (rp.SSQuality ≠ "Off" : Bool) then
      Except.ok [Call.config "setRenderQuality", Call.config "setSuperSamplingQuality",
        Call.config "setSuperSampling", Call.config "enableRaytracing",
        Call.config "setRaytracingMode"]
    else
      Except.ok [Call.config "setRenderQuality", Call.config "enableRaytracing",
        Call.config "setRaytracingMode"]

/-- Embedding of `init_render_animation` (lines 331-351). -/
def init_render_animation (rp : RenderParameters) :
    Except (String × List Call) (List Call) :=
  let c : List Call :=
    [Call.config "setRenderStartFrame", Call.config "setRenderStopFrame",
     Call.config "setRenderFrameStep", Call.config "setRenderAnimationFormat"]
  if ANIMATION_TYPE_KEYS.contains rp.AnimationType = false then
    Except.error ("KeyError: " ++ rp.AnimationType, c)
  else
    Except.ok (c ++
      [Call.config "setRenderAnimationType", Call.config "setRenderAnimationClip",
       Call.config "setRenderSupersampling", Call.config "setRenderUseClipRange"])

/-- Embedding of `init_render_job` (lines 286-303). -/
def init_render_job (rp : RenderParameters) (env : Env) :
    Except (String × List Call) (List Call) :=
  match init_camera_view rp env with
  | Except.error ec => Except.error ec
  | Except.ok c1 =>
    match init_render_quality_modes rp env with
    | Except.error (e, c2) => Except.error (e, c1 ++ c2)
    | Except.ok c2 =>
      let c3 : List Call :=
        [Call.config "setRenderPixelResolution", Call.config "setRenderAnimation"]
      match (if rp.RenderAnimation then init_render_animation rp else Except.ok []) with
      | Except.error (e, c4) => Except.error (e, c1 ++ c2 ++ c3 ++ c4)
      | Except.ok c4 =>
          Except.ok (c1 ++ c2 ++ c3 ++ c4 ++ [Call.config "setRenderAlpha"])

/-- Embedding of `init_sequencer_job` (lines 241-251). -/
def init_sequencer_job (rp : RenderParameters) : List Call :=
  if rp.SequenceName = "" then [Call.config "runAllSequences"]
  else [Call.config "runSequence"]

/-- Embedding of `init_by_job_type` (lines 468-479); the `JobType`
    `StrEnum` values are the strings "Render Queue", "Sequencer",
    "Render". -/
def init_by_job_type (rp : RenderParameters) (env : Env) :
    Except (String × List Call) (List Call) :=
  if rp.JobType = "Render Queue" then Except.ok [Call.config "runAllRenderJobs"]
  else if rp.JobType = "Sequencer" then Except.ok (init_sequencer_job rp)
  else if rp.JobType = "Render" then init_render_job rp env
  else Except.ok []

/-- Embedding of `init_render_region` (lines 431-466) at the call-trace
    level: `setUseRenderRegion` always fires; when region rendering is on
    the four pixel-bound setters, the normalized ray-tracing region call
    and `enableRaytracing` follow.  `divmod` by a zero tile count, or the
    float division by a zero image dimension, raises
    `ZeroDivisionError` at the corresponding point. -/
def init_render_region (rp : RenderParameters) :
    Except (String × List Call) (List Call) :=
  if rp.RegionRendering = false then Except.ok [Call.config "setUseRenderRegion"]
  else if rp.NumXTiles = 0 ∨ rp.NumYTiles = 0 then
    Except.error ("ZeroDivisionError", [Call.config "setUseRenderRegion"])
  else if rp.ImageWidth = 0 ∨ rp.ImageHeight = 0 then
    Except.error ("ZeroDivisionError",
      [Call.config "setUseRenderRegion", Call.config "setRenderRegionStartX",
       Call.config "setRenderRegionEndX", Call.config "setRenderRegionStartY",
       Call.config "setRenderRegionEndY"])
  else
    Except.ok
      [Call.config "setUseRenderRegion", Call.config "setRenderRegionStartX",
       Call.config "setRenderRegionEndX", Call.config "setRenderRegionStartY",
       Call.config "setRenderRegionEndY", Call.config "setRaytracingRenderRegion",
       Call.config "enableRaytracing"]

/-- Embedding of `init_render_settings` (lines 481-493). -/
def init_render_settings (rp : RenderParameters) (env : Env) :
    Except (String × List Call) (List Call) :=
  match init_by_job_type rp env with
  | Except.error ec => Except.error ec
  | Except.ok c1 =>
    let c2 : List Call :=
      if rp.OverrideRenderPass then [Call.config "setUseRenderPasses"] else []
    let c3 : List Call :=
      [Call.config "setRenderPremultiply", Call.config "setRenderTonemapHDR"]
    match init_render_region rp with
    | Except.error (e, c4) => Except.error (e, c1 ++ c2 ++ c3 ++ c4)
    | Except.ok c4 => Except.ok (c1 ++ c2 ++ c3 ++ c4 ++ [Call.config "setRenderFilename"])

/-- Embedding of `init_file_references` (lines 419-429): each scene
    reference's path is passed through `map_path` (threading the rule
    cache) and written back via `setSmartPath`/`setSourcePath`. -/
def init_file_references (refs : List SceneRef) (rules : List PathMappingRule)
    (file : RulesFileInput) :
    Except (String × List Call) (List Call × List PathMappingRule) :=
  match refs with
  | [] => Except.ok ([], rules)
  | node :: rest =>
    match map_path rules file node.refPath with
    | Except.error e => Except.error (e, [])
    | Except.ok (_, rules2) =>
      let call : Call :=
        if node.isSmart then Call.config "setSmartPath" else Call.config "setSourcePath"
      match init_file_references rest rules2 file with
      | Except.error (e, cs) => Except.error (e, call :: cs)
      | Except.ok (cs, rules3) => Except.ok (call :: cs, rules3)

/-- The `try` body of `render` (lines 509-517): validate, rewrite file
    references, apply render settings, trigger the render once, then the
    in-`try` `terminateVred`.  On an exception the partial call trace is
    carried in the error. -/
def renderBody (rp : RenderParameters) (env : Env)
    (rules : List PathMappingRule) (file : RulesFileInput) :
    Except (String × List Call) (List Call) :=
  match validate_render_settings rp with
  | Except.error e => Except.error (e, [])
  | Except.ok _ =>
    match init_file_references env.sceneRefs rules file with
    | Except.error ec => Except.error ec
    | Except.ok (c1, _) =>
      match init_render_settings rp env with
      | Except.error (e, c2) => Except.error (e, c1 ++ c2)
      | Except.ok c2 =>
          Except.ok (c1 ++ c2 ++ [Call.startRenderToFile, Call.terminateVred])

/-- Embedding of `render` (lines 505-525): the `try` body, the `except`
    handler (`crashVred(1)` under the termination policy flag), and the
    `finally` block (`terminateVred` under the same flag).  The result is
    the full trace of external calls of one render invocation. -/
def render (rp : RenderParameters) (env : Env)
    (rules : List PathMappingRule) (file : RulesFileInput) : List Call :=
  match renderBody rp env rules file with
  | Except.ok calls =>
      calls ++ (if WANT_VRED_TERMINATION_ON_ERROR then [Call.terminateVred] else [])
  | Except.error (_, calls) =>
      calls ++ (if WANT_VRED_TERMINATION_ON_ERROR then [Call.crashVred 1] else [])
            ++ (if WANT_VRED_TERMINATION_ON_ERROR then [Call.terminateVred] else [])

/-- Embedding of the output-filename computation of
    `DeadlineCloudRenderer.__init__` (lines 180-193). -/
def output_filename (rp : RenderParameters) : String :=
  let output_directory := pyReplaceChar '\\' '/' (pyStrip rp.OutputDir)
  let stem := pyStrip rp.OutputFileNameStem
  let suffix := pyLower (pyStrip rp.OutputFormat)
  let regionPart : String :=
    if rp.RegionRendering then
      "_region_" ++ intStr rp.TileNumberY ++ "x" ++ intStr rp.TileNumberX ++ "_"
        ++ intStr rp.NumYTiles ++ "x" ++ intStr rp.NumXTiles
    else ""
  posixJoin output_directory (stem ++ regionPart ++ "." ++ suffix)

/-! ## Trace classification and concrete test vectors -/

/-- A renderer-configuration call (render-setting setter, file-reference
    rewrite or queue/sequence run), as opposed to the render trigger and
    the termination calls. -/
def isConfigCall (c : Call) : Bool :=
  match c with
  | Call.config _ => true
  | _ => false

/-- Every call of the trace is a renderer-configuration call. -/
def onlyConfig (l : List Call) : Bool := l.all isConfigCall

/-- A raised (uncaught) exception outcome of validation. -/
def exceptFailed (r : Except String Unit) : Bool :=
  match r with
  | Except.error _ => true
  | Except.ok _ => false

/-- A minimal render-parameter vector on which one render invocation
    succeeds end to end (`JobType = "Render"`, all enum selections valid,
    no animation, no region rendering, no warnings). -/
def rpSuccess : RenderParameters where
  OutputDir := "/out"
  OutputFileNameStem := "img"
  OutputFormat := "PNG"
  RegionRendering := false
  TileNumberX := 1
  TileNumberY := 1
  NumXTiles := 1
  NumYTiles := 1
  RenderQuality := "NPR"
  SSQuality := "Off"
  DLSSQuality := "Off"
  AnimationType := "Timeline"
  StartFrame := 1
  EndFrame := 10
  FrameStep := 1
  JobType := "Render"
  SequenceName := ""
  View := ""
  AnimationClip := ""
  RenderAnimation := false
  OverrideRenderPass := false
  ExportRenderPasses := false
  JobFailureOnWarnings := false
  GPURaytracing := false
  IncludeAlphaChannel := false
  PremultiplyAlpha := false
  TonemapHDR := false
  ImageWidth := 800
  ImageHeight := 600
  DPI := 72

/-- `rpSuccess` with an inverted frame range. -/
def rpInverted : RenderParameters :=
  { rpSuccess with StartFrame := 20, EndFrame := 5 }

/-- Tile (2,1) of a 3×2 region-rendering grid. -/
def rpTileA : RenderParameters :=
  { rpSuccess with RegionRendering := true, NumXTiles := 3, NumYTiles := 2, TileNumberX := 2, TileNumberY := 1 }

/-- Tile (1,1) of the same 3×2 region-rendering grid. -/
def rpTileB : RenderParameters :=
  { rpSuccess with RegionRendering := true, NumXTiles := 3, NumYTiles := 2, TileNumberX := 1, TileNumberY := 1 }

/-- An environment with no scene references and no named views. -/
def envEmpty : Env where
  sceneRefs := []
  viewpoints := []
  cameras := []
  dlssSupported := false

/-- A pre-loaded one-rule cache (so `map_path` performs no file access). -/
def rulesOne : List PathMappingRule := [⟨"POSIX", "/a", "/b"⟩]

/-- The `try`-body call trace of the successful invocation `rpSuccess`. -/
def successCalls : List Call :=
  [Call.config "setRenderQuality", Call.config "enableRaytracing",
   Call.config "setRaytracingMode", Call.config "setRenderPixelResolution",
   Call.config "setRenderAnimation", Call.config "setRenderAlpha",
   Call.config "setRenderPremultiply", Call.config "setRenderTonemapHDR",
   Call.config "setUseRenderRegion", Call.config "setRenderFilename",
   Call.startRenderToFile, Call.terminateVred]

/-! ## Helper lemmas -/

/-- The rule loop of `map_path` is the identity when no rule matches. -/
theorem mapPathRules_eq_self_of_no_match (rules : List PathMappingRule)
    (p : String) (h : ∀ r ∈ rules, ruleMatches r p = false) :
    mapPathRules rules p = p := by
  induction rules with
  | nil => rfl
  | cons a l ih =>
      simp only [mapPathRules]
      rw [h a (by simp)]
      simp only [Bool.false_eq_true, if_false]
      exact ih (fun r hr => h r (by simp [hr]))

theorem onlyConfig_append {a b : List Call} (ha : onlyConfig a = true)
    (hb : onlyConfig b = true) : onlyConfig (a ++ b) = true := by
  unfold onlyConfig at ha hb ⊢
  rw [List.all_append, ha, hb]
  rfl

theorem onlyConfig_notMem {l : List Call} (h : onlyConfig l = true) {c : Call}
    (hc : isConfigCall c = false) : c ∉ l := by
  intro hmem
  have hall := List.all_eq_true.1 h c hmem
  rw [hc] at hall
  exact Bool.false_ne_true hall

theorem onlyConfig_count_eq_zero {l : List Call} (h : onlyConfig l = true)
    {c : Call} (hc : isConfigCall c = false) : l.count c = 0 :=
  List.count_eq_zero.2 (onlyConfig_notMem h hc)

theorem init_camera_view_onlyConfig (rp : RenderParameters) (env : Env)
    {c : List Call} (h : init_camera_view rp env = Except.ok c) :
    onlyConfig c = true := by
  unfold init_camera_view at h
  repeat' split at h
  all_goals (cases h; try rfl)

theorem init_render_quality_modes_onlyConfig (rp : RenderParameters)
    (env : Env) {c : List Call}
    (h : init_render_quality_modes rp env = Except.ok c) :
    onlyConfig c = true := by
  unfold init_render_quality_modes at h
  repeat' split at h
  all_goals (cases h; try rfl)

theorem init_render_animation_onlyConfig (rp : RenderParameters)
    {c : List Call} (h : init_render_animation rp = Except.ok c) :
    onlyConfig c = true := by
  unfold init_render_animation at h
  repeat' split at h
  all_goals (cases h; try rfl)

theorem init_render_job_onlyConfig (rp : RenderParameters) (env : Env)
    {c : List Call} (h : init_render_job rp env = Except.ok c) :
    onlyConfig c = true := by
  unfold init_render_job at h
  split at h
  · exact Except.noConfusion h
  · rename_i c1 h1
    split at h
    · exact Except.noConfusion h
    · rename_i c2 h2
      split at h
      · exact Except.noConfusion h
      · rename_i c4 h4
        cases h
        refine onlyConfig_append (onlyConfig_append (onlyConfig_append
          (onlyConfig_append (init_camera_view_onlyConfig rp env h1)
            (init_render_quality_modes_onlyConfig rp env h2)) rfl) ?_) rfl
        split at h4
        · exact init_render_animation_onlyConfig rp h4
        · cases h4; rfl

theorem init_by_job_type_onlyConfig (rp : RenderParameters) (env : Env)
    {c : List Call} (h : init_by_job_type rp env = Except.ok c) :
    onlyConfig c = true := by
  unfold init_by_job_type at h
  split at h
  · cases h; rfl
  · split at h
    · cases h; unfold init_sequencer_job; split <;> rfl
    · split at h
      · exact init_render_job_onlyConfig rp env h
      · cases h; rfl

theorem init_render_region_onlyConfig (rp : RenderParameters)
    {c : List Call} (h : init_render_region rp = Except.ok c) :
    onlyConfig c = true := by
  unfold init_render_region at h
  repeat' split at h
  all_goals (cases h; try rfl)

theorem init_render_settings_onlyConfig (rp : RenderParameters) (env : Env)
    {c : List Call} (h : init_render_settings rp env = Except.ok c) :
    onlyConfig c = true := by
  unfold init_render_settings at h
  cases h1 : init_by_job_type rp env with
  | error ec => simp only [h1, reduceCtorEq] at h
  | ok c1 =>
      simp only [h1] at h
      cases h4 : init_render_region rp with
      | error ec =>
          obtain ⟨e4, c4⟩ := ec
          simp only [h4, reduceCtorEq] at h
      | ok c4 =>
          simp only [h4, Except.ok.injEq] at h
          subst h
          refine onlyConfig_append (onlyConfig_append (onlyConfig_append
            (onlyConfig_append (init_by_job_type_onlyConfig rp env h1) ?_) rfl)
            (init_render_region_onlyConfig rp h4)) rfl
          split <;> rfl

theorem init_file_references_onlyConfig (refs : List SceneRef)
    (rules : List PathMappingRule) (file : RulesFileInput)
    {c : List Call} {rules2 : List PathMappingRule}
    (h : init_file_references refs rules file = Except.ok (c, rules2)) :
    onlyConfig c = true := by
  induction refs generalizing rules c rules2 with
  | nil => cases h; rfl
  | cons node rest ih =>
      unfold init_file_references at h
      cases hmap : map_path rules file node.refPath with
      | error e => simp only [hmap, reduceCtorEq] at h
      | ok pr =>
          obtain ⟨p1, r2⟩ := pr
          simp only [hmap] at h
          cases hrec : init_file_references rest r2 file with
          | error ec =>
              obtain ⟨e2, cs⟩ := ec
              simp only [hrec, reduceCtorEq] at h
          | ok pr2 =>
              obtain ⟨cs, rules3⟩ := pr2
              simp only [hrec, Except.ok.injEq, Prod.mk.injEq] at h
              obtain ⟨h5, h6⟩ := h
              subst h5
              have hcs := ih r2 hrec
              unfold onlyConfig at hcs ⊢
              rw [List.all_cons, hcs, Bool.and_true]
              split <;> rfl

/-- Inversion of a successful `try` body: the trace is configuration
    calls followed by exactly one render trigger and the in-`try`
    termination call. -/
theorem renderBody_ok_shape (rp : RenderParameters) (env : Env)
    (rules : List PathMappingRule) (file : RulesFileInput)
    {calls : List Call}
    (h : renderBody rp env rules file = Except.ok calls) :
    ∃ c1 c2, onlyConfig c1 = true ∧ onlyConfig c2 = true ∧
      calls = c1 ++ c2 ++ [Call.startRenderToFile, Call.terminateVred] := by
  unfold renderBody at h
  cases hval : validate_render_settings rp with
  | error e => simp only [hval, reduceCtorEq] at h
  | ok u =>
      simp only [hval] at h
      cases hrefs : init_file_references env.sceneRefs rules file with
      | error ec =>
          obtain ⟨e1, cs⟩ := ec
          simp only [hrefs, reduceCtorEq] at h
      | ok pr =>
          obtain ⟨c1, rules2⟩ := pr
          simp only [hrefs] at h
          cases hsettings : init_render_settings rp env with
          | error ec =>
              obtain ⟨e2, c2⟩ := ec
              simp only [hsettings, reduceCtorEq] at h
          | ok c2 =>
              simp only [hsettings, Except.ok.injEq] at h
              subst h
              exact ⟨c1, c2,
                init_file_references_onlyConfig env.sceneRefs rules file hrefs,
                init_render_settings_onlyConfig rp env hsettings, rfl⟩

theorem digitChar_toNat {d : Nat} (hd : d < 10) :
    (digitChar d).toNat = 48 + d := by
  interval_cases d <;> rfl

theorem digitsVal_append (l : List Char) (c : Char) :
    digitsVal (l ++ [c]) = 10 * digitsVal l + (c.toNat - 48) := by
  simp [digitsVal, List.foldl_append]

/-- `digitsVal` inverts `natDecimal`. -/
theorem digitsVal_natDecimal (n : Nat) : digitsVal (natDecimal n) = n := by
  induction n using Nat.strong_induction_on with
  | _ n ih =>
      rw [natDecimal]
      split
      · rename_i h
        have e : digitsVal [digitChar n] = 10 * 0 + ((digitChar n).toNat - 48) := rfl
        rw [e, digitChar_toNat h]
        omega
      · rename_i h
        rw [digitsVal_append,
          ih (n / 10) (Nat.div_lt_self (by omega) (by omega)),
          digitChar_toNat (Nat.mod_lt n (by omega))]
        omega

theorem natDecimal_inj {a b : Nat} (h : natDecimal a = natDecimal b) :
    a = b := by
  rw [← digitsVal_natDecimal a, ← digitsVal_natDecimal b, h]

/-- Every character of `natDecimal n` is a decimal digit. -/
theorem natDecimal_digits {n : Nat} {c : Char} (hc : c ∈ natDecimal n) :
    48 ≤ c.toNat ∧ c.toNat ≤ 57 := by
  induction n using Nat.strong_induction_on with
  | _ n ih =>
      rw [natDecimal] at hc
      split at hc
      · rename_i h
        rw [List.mem_singleton] at hc
        subst hc
        rw [digitChar_toNat h]
        omega
      · rename_i h
        rw [List.mem_append] at hc
        rcases hc with hc | hc
        · exact ih (n / 10) (Nat.div_lt_self (by omega) (by omega)) hc
        · rw [List.mem_singleton] at hc
          subst hc
          rw [digitChar_toNat (Nat.mod_lt n (by omega))]
          omega

theorem natDecimal_not_mem {n : Nat} {ch : Char}
    (hch : ch.toNat ≤ 47 ∨ 58 ≤ ch.toNat) : ch ∉ natDecimal n := by
  intro hmem
  have := natDecimal_digits hmem
  omega

theorem intDecimal_not_mem {i : Int} {ch : Char}
    (hch : ch.toNat ≤ 44 ∨ 58 ≤ ch.toNat) : ch ∉ intDecimal i := by
  unfold intDecimal
  split
  · intro hmem
    rw [List.mem_cons] at hmem
    rcases hmem with hmem | hmem
    · subst hmem; revert hch; decide
    · exact natDecimal_not_mem (by omega) hmem
  · exact natDecimal_not_mem (by omega)

theorem intDecimal_inj {a b : Int} (h : intDecimal a = intDecimal b) :
    a = b := by
  unfold intDecimal at h
  split at h <;> split at h
  · rename_i ha hb
    rw [List.cons.injEq] at h
    have := natDecimal_inj h.2
    omega
  · rename_i ha hb
    exact absurd (h ▸ List.mem_cons_self '-' (natDecimal (-a).toNat))
      (natDecimal_not_mem (by decide))
  · rename_i ha hb
    exact absurd (h.symm ▸ List.mem_cons_self '-' (natDecimal (-b).toNat))
      (natDecimal_not_mem (by decide))
  · rename_i ha hb
    have := natDecimal_inj h
    omega

/-- Splitting at a unique separator: if the separator occurs in neither
    left part, an equality of separated concatenations splits. -/
theorem append_sep_inj (c : Char) (a : List Char) : ∀ (a2 b b2 : List Char),
    c ∉ a → c ∉ a2 → a ++ c :: b = a2 ++ c :: b2 → a = a2 ∧ b = b2 := by
  induction a with
  | nil =>
      intro a2 b b2 _ ha2 h
      cases a2 with
      | nil => simpa using h
      | cons d l =>
          rw [List.nil_append, List.cons_append, List.cons.injEq] at h
          exact absurd (h.1 ▸ List.mem_cons_self d l) ha2
  | cons d l ih =>
      intro a2 b b2 ha ha2 h
      cases a2 with
      | nil =>
          rw [List.nil_append, List.cons_append, List.cons.injEq] at h
          exact absurd (h.1.symm ▸ List.mem_cons_self d l) ha
      | cons d2 l2 =>
          rw [List.cons_append, List.cons_append, List.cons.injEq] at h
          have hl := ih l2 b b2 (fun hm => ha (List.mem_cons_of_mem d hm))
            (fun hm => ha2 (h.1 ▸ List.mem_cons_of_mem d hm)) h.2
          exact ⟨by rw [h.1, hl.1], hl.2⟩

/-- `posixJoin` is injective in its second argument when the two names
    begin with the same character. -/
theorem posixJoin_right_inj (d n1 n2 : String)
    (hh : n1.data.head? = n2.data.head?)
    (h : posixJoin d n1 = posixJoin d n2) : n1 = n2 := by
  unfold posixJoin at h
  by_cases h1 : n1.data.head? = some '/'
  · have h2 : n2.data.head? = some '/' := by rw [← hh]; exact h1
    rw [if_pos h1, if_pos h2] at h
    exact h
  · have h2 : ¬ n2.data.head? = some '/' := by rw [← hh]; exact h1
    rw [if_neg h1, if_neg h2] at h
    apply String.ext
    split at h
    · have := congrArg String.data h
      exact List.append_cancel_left this
    · have := congrArg String.data h
      have h3 := List.append_cancel_left this
      rw [List.cons.injEq] at h3
      exact h3.2

theorem intStr_data (i : Int) : (intStr i).data = intDecimal i := rfl

/-- The head character of the assembled output file name does not depend
    on the region segment, provided both segments start with `'_'`. -/
theorem name_head_eq (s r1 r2 t : String)
    (hr1 : r1.data.head? = some '_') (hr2 : r2.data.head? = some '_') :
    (s ++ r1 ++ "." ++ t).data.head? = (s ++ r2 ++ "." ++ t).data.head? := by
  simp only [String.data_append]
  cases hs : s.data with
  | nil =>
      simp only [List.nil_append]
      cases hd1 : r1.data with
      | nil => rw [hd1] at hr1; exact absurd hr1 (by simp)
      | cons a l =>
          cases hd2 : r2.data with
          | nil => rw [hd2] at hr2; exact absurd hr2 (by simp)
          | cons a2 l2 =>
              rw [hd1] at hr1
              rw [hd2] at hr2
              simp only [List.head?_cons, Option.some.injEq] at hr1 hr2
              simp [List.cons_append, hr1, hr2]
  | cons a l => simp [List.cons_append]

/-- One-dimensional tile-span membership: with per-tile width `d`,
    remainder `r` and `n` tiles, coordinate `p` lies in the inclusive
    span of the 1-based tile `i` as computed by `computePixelBounds`. -/
def axisMem (d r n i p : Int) : Prop :=
  d * (i - 1) ≤ p ∧ p ≤ d * i - 1 + (if i = n then r else 0)

/-- Every in-range coordinate lies in some tile's span. -/
theorem axisMem_exists (d r n p : Int) (hn : 1 ≤ n) (hd : 0 ≤ d)
    (hp0 : 0 ≤ p) (hpW : p < d * n + r) :
    ∃ i : Int, (1 ≤ i ∧ i ≤ n) ∧ axisMem d r n i p := by
  by_cases hd0 : d = 0
  · subst hd0
    refine ⟨n, ⟨hn, le_refl n⟩, ?_, ?_⟩
    · simpa using hp0
    · rw [if_pos rfl]
      simp only [Int.zero_mul] at hpW ⊢
      omega
  · have hdpos : 0 < d := lt_of_le_of_ne hd (Ne.symm hd0)
    have h1 : d * (p / d) + p % d = p := Int.ediv_add_emod p d
    have h2 : 0 ≤ p % d := Int.emod_nonneg p (by omega)
    have h3 : p % d < d := Int.emod_lt_of_pos p hdpos
    have hq0 : 0 ≤ p / d := Int.ediv_nonneg hp0 (le_of_lt hdpos)
    by_cases hc : p / d + 1 < n
    · refine ⟨p / d + 1, ⟨by omega, by omega⟩, ?_, ?_⟩
      · have e1 : d * (p / d + 1 - 1) = d * (p / d) := by ring
        rw [e1]; linarith
      · rw [if_neg (by omega : ¬ (p / d + 1 = n))]
        have e2 : d * (p / d + 1) = d * (p / d) + d := by ring
        rw [e2]; omega
    · refine ⟨n, ⟨hn, le_refl n⟩, ?_, ?_⟩
      · have h4 : n - 1 ≤ p / d := by omega
        have h5 : d * (n - 1) ≤ d * (p / d) := by
          exact mul_le_mul_of_nonneg_left h4 hd
        linarith
      · rw [if_pos rfl]; omega

/-- Two distinct tile spans cannot both contain `p`: the earlier tile's
    inclusive upper bound lies strictly below the later tile's lower
    bound. -/
theorem axisMem_no_overlap (d r n a b p : Int) (hd : 0 ≤ d) (hab : a < b)
    (hbn : b ≤ n) (ha : axisMem d r n a p) (hb : axisMem d r n b p) :
    False := by
  have ha_hi := ha.2
  rw [if_neg (by omega : ¬ (a = n))] at ha_hi
  have h1 : a ≤ b - 1 := by omega
  have h2 : d * a ≤ d * (b - 1) := mul_le_mul_of_nonneg_left h1 hd
  have hb_lo := hb.1
  omega

/-- At most one tile's span contains `p`. -/
theorem axisMem_unique (d r n i j p : Int) (hd : 0 ≤ d)
    (hin : i ≤ n) (hjn : j ≤ n)
    (hmi : axisMem d r n i p) (hmj : axisMem d r n j p) : i = j := by
  rcases lt_trichotomy i j with h | h | h
  · exact (axisMem_no_overlap d r n i j p hd h hjn hmi hmj).elim
  · exact h
  · exact (axisMem_no_overlap d r n j i p hd h hin hmj hmi).elim

/-- `pixelInBounds` over `computePixelBounds` decomposes into two
    independent 1-D span memberships. -/
theorem pixelInBounds_iff_axisMem (W H nx ny tx ty px py : Int)
    (hnx : 0 < nx) (hny : 0 < ny) :
    pixelInBounds (computePixelBounds W H nx ny tx ty) px py ↔
      (axisMem (W / nx) (W % nx) nx tx px ∧
       axisMem (H / ny) (H % ny) ny ty py) := by
  unfold pixelInBounds computePixelBounds axisMem
  rw [Int.fdiv_eq_ediv W (by omega), Int.fmod_eq_emod W (by omega),
      Int.fdiv_eq_ediv H (by omega), Int.fmod_eq_emod H (by omega)]
  simp only []
  constructor
  · rintro ⟨a, b, c, d⟩; exact ⟨⟨a, b⟩, ⟨c, d⟩⟩
  · rintro ⟨⟨a, b⟩, ⟨c, d⟩⟩; exact ⟨a, b, c, d⟩

/-! ## Claim theorems -/

/-- C1: the claim says iterating `FrameRange` yields the inclusive
    stepped sequence bounded above by `stop`, with
    `FrameRange(1,10,2) = [1,3,5,7,9]`.  The code
    (`range(start, stop + step, step)`) instead yields
    `[1, 3, 5, 7, 9, 11]`: the frame `11 > stop` is produced whenever
    `stop - start` is not a multiple of `step`.  The repository's own
    unit test (`test_iter_range_with_step`) asserts `[1, 3, 5, 7, 9]`,
    so this is a code bug.  The two step-free cases of the claim do hold. -/
theorem frameRange_iter_eval :
    FrameRange.toList ⟨1, some 10, some 2⟩ = [1, 3, 5, 7, 9, 11] ∧
    ¬ (∀ f ∈ FrameRange.toList ⟨1, some 10, some 2⟩, f ≤ 10) ∧
    FrameRange.toList ⟨5, none, none⟩ = [5] ∧
    FrameRange.toList ⟨1, some 10, none⟩ = [1, 2, 3, 4, 5, 6, 7, 8, 9, 10] := by
  refine ⟨by decide, by decide, by decide, by decide⟩

/-- C2 counterexample: a concrete render invocation whose validation,
    file-reference mapping, configuration and render trigger all succeed
    (the `try` body returns normally), on which `startRenderToFile` is
    invoked exactly once but `terminateVred` is invoked exactly twice —
    once at the end of the `try` body (line 517) and once in the
    `finally` block (line 525) — refuting "`terminateVred` is invoked
    exactly once" on the success path. -/
theorem render_success_double_terminate_cex :
    renderBody rpSuccess envEmpty rulesOne (RulesFileInput.unreadable "") =
      Except.ok successCalls ∧
    (render rpSuccess envEmpty rulesOne (RulesFileInput.unreadable "")).count
        Call.startRenderToFile = 1 ∧
    (render rpSuccess envEmpty rulesOne (RulesFileInput.unreadable "")).count
        Call.terminateVred = 2 ∧
    ¬ ((render rpSuccess envEmpty rulesOne (RulesFileInput.unreadable "")).count
        Call.terminateVred = 1) :=
  ⟨rfl, rfl, rfl, by decide⟩

/-- C2 (amended): on the success path of one render invocation (the
    `try` body completes without an exception), the external render
    trigger `startRenderToFile` is invoked exactly once and the
    session-termination call `terminateVred` is invoked exactly twice:
    once at the end of the `try` body and once more in the guaranteed
    `finally` step. -/
theorem render_success_trace_counts (rp : RenderParameters) (env : Env)
    (rules : List PathMappingRule) (file : RulesFileInput) (calls : List Call)
    (h : renderBody rp env rules file = Except.ok calls) :
    (render rp env rules file).count Call.startRenderToFile = 1 ∧
    (render rp env rules file).count Call.terminateVred = 2 := by
  obtain ⟨c1, c2, h1, h2, rfl⟩ := renderBody_ok_shape rp env rules file h
  have z1 := @onlyConfig_count_eq_zero c1 h1 Call.startRenderToFile rfl
  have z2 := @onlyConfig_count_eq_zero c2 h2 Call.startRenderToFile rfl
  have z3 := @onlyConfig_count_eq_zero c1 h1 Call.terminateVred rfl
  have z4 := @onlyConfig_count_eq_zero c2 h2 Call.terminateVred rfl
  simp only [render, h]
  constructor
  · simp only [List.count_append, z1, z2]
    rfl
  · simp only [List.count_append, z3, z4]
    rfl

/-- Witness for C2's amended theorem on the concrete succeeding
    invocation. -/
theorem render_success_trace_counts_witness :
    (render rpSuccess envEmpty rulesOne (RulesFileInput.unreadable "")).count
        Call.startRenderToFile = 1 ∧
    (render rpSuccess envEmpty rulesOne (RulesFileInput.unreadable "")).count
        Call.terminateVred = 2 :=
  render_success_trace_counts rpSuccess envEmpty rulesOne
    (RulesFileInput.unreadable "") successCalls rfl

/-- C9: whenever `StartFrame > EndFrame`, `validate_render_settings`
    raises, the invocation's whole trace is just the error-handling pair
    `crashVred(1); terminateVred`, and in particular no
    renderer-configuration call (no file-reference rewrite, no
    render-setting setter) and no render trigger happens before the
    failure. -/
theorem inverted_range_fails_before_config (rp : RenderParameters)
    (env : Env) (rules : List PathMappingRule) (file : RulesFileInput)
    (h : rp.EndFrame < rp.StartFrame) :
    exceptFailed (validate_render_settings rp) = true ∧
    render rp env rules file = [Call.crashVred 1, Call.terminateVred] ∧
    (render rp env rules file).countP isConfigCall = 0 ∧
    (render rp env rules file).count Call.startRenderToFile = 0 := by
  have hval : ∃ e, validate_render_settings rp = Except.error e := by
    unfold validate_render_settings
    split
    · exact ⟨_, rfl⟩
    · split
      · exact ⟨_, rfl⟩
      · split
        · exact ⟨_, rfl⟩
        · split
          · exact ⟨_, rfl⟩
          · exact ⟨_, rfl⟩
  obtain ⟨e, he⟩ := hval
  have hrender : render rp env rules file =
      [Call.crashVred 1, Call.terminateVred] := by
    simp only [render, renderBody, he]
    rfl
  refine ⟨?_, hrender, ?_, ?_⟩
  · rw [he]; rfl
  · rw [hrender]; rfl
  · rw [hrender]; rfl

/-- Witness for C9 at `StartFrame = 20, EndFrame = 5`. -/
theorem inverted_range_fails_before_config_witness :
    exceptFailed (validate_render_settings rpInverted) = true ∧
    render rpInverted envEmpty [] (RulesFileInput.unreadable "") =
      [Call.crashVred 1, Call.terminateVred] ∧
    (render rpInverted envEmpty [] (RulesFileInput.unreadable "")).countP
        isConfigCall = 0 ∧
    (render rpInverted envEmpty [] (RulesFileInput.unreadable "")).count
        Call.startRenderToFile = 0 :=
  inverted_range_fails_before_config rpInverted envEmpty []
    (RulesFileInput.unreadable "") (by decide)

/-- C3: for every `num_x_tiles, num_y_tiles ∈ [1,50]` and
    `image_width, image_height ∈ [1,4000]`, the inclusive pixel boxes
    computed by `init_render_region` over all 1-based tile coordinates
    exactly partition the pixel grid `[0, W) × [0, H)` — every pixel lies
    in exactly one tile's box — and the remainder pixels are assigned to
    the last column/row, whose box extends to the image edge
    (`right = W - 1`, `top = H - 1`). -/
theorem tile_bounds_partition (W H nx ny : Int)
    (hW : 1 ≤ W ∧ W ≤ 4000) (hH : 1 ≤ H ∧ H ≤ 4000)
    (hnx : 1 ≤ nx ∧ nx ≤ 50) (hny : 1 ≤ ny ∧ ny ≤ 50)
    (px py : Int) (hpx : 0 ≤ px ∧ px < W) (hpy : 0 ≤ py ∧ py < H) :
    (∃! t : Int × Int, (1 ≤ t.1 ∧ t.1 ≤ nx ∧ 1 ≤ t.2 ∧ t.2 ≤ ny) ∧
        pixelInBounds (computePixelBounds W H nx ny t.1 t.2) px py) ∧
    (computePixelBounds W H nx ny nx ny).right = W - 1 ∧
    (computePixelBounds W H nx ny nx ny).top = H - 1 := by
  obtain ⟨hW1, hW2⟩ := hW
  obtain ⟨hH1, hH2⟩ := hH
  obtain ⟨hnx1, hnx2⟩ := hnx
  obtain ⟨hny1, hny2⟩ := hny
  obtain ⟨hpx1, hpx2⟩ := hpx
  obtain ⟨hpy1, hpy2⟩ := hpy
  have hdx0 : 0 ≤ W / nx := Int.ediv_nonneg (by omega) (by omega)
  have hdy0 : 0 ≤ H / ny := Int.ediv_nonneg (by omega) (by omega)
  have hex : W / nx * nx + W % nx = W := Int.ediv_add_emod' W nx
  have hey : H / ny * ny + H % ny = H := Int.ediv_add_emod' H ny
  have hpxlt : px < W / nx * nx + W % nx := by rw [hex]; exact hpx2
  have hpylt : py < H / ny * ny + H % ny := by rw [hey]; exact hpy2
  obtain ⟨ix, ⟨hix1, hix2⟩, hmx⟩ :=
    axisMem_exists (W / nx) (W % nx) nx px hnx1 hdx0 hpx1 hpxlt
  obtain ⟨iy, ⟨hiy1, hiy2⟩, hmy⟩ :=
    axisMem_exists (H / ny) (H % ny) ny py hny1 hdy0 hpy1 hpylt
  refine ⟨⟨(ix, iy), ⟨⟨hix1, hix2, hiy1, hiy2⟩, ?_⟩, ?_⟩, ?_, ?_⟩
  · exact (pixelInBounds_iff_axisMem W H nx ny ix iy px py (by omega)
      (by omega)).2 ⟨hmx, hmy⟩
  · rintro ⟨jx, jy⟩ ⟨⟨hj1, hj2, hj3, hj4⟩, hmem⟩
    obtain ⟨hmx2, hmy2⟩ := (pixelInBounds_iff_axisMem W H nx ny jx jy px py
      (by omega) (by omega)).1 hmem
    have ex : jx = ix :=
      axisMem_unique (W / nx) (W % nx) nx jx ix px hdx0 hj2 hix2 hmx2 hmx
    have ey : jy = iy :=
      axisMem_unique (H / ny) (H % ny) ny jy iy py hdy0 hj4 hiy2 hmy2 hmy
    simp [ex, ey]
  · simp only [computePixelBounds, if_pos]
    rw [Int.fdiv_eq_ediv W (by omega), Int.fmod_eq_emod W (by omega)]
    linarith
  · simp only [computePixelBounds, if_pos]
    rw [Int.fdiv_eq_ediv H (by omega), Int.fmod_eq_emod H (by omega)]
    linarith

/-- Witness for C3 on a concrete 3×2 grid over a 10×10 image at
    pixel (9, 5). -/
theorem tile_bounds_partition_witness :
    (∃! t : Int × Int, (1 ≤ t.1 ∧ t.1 ≤ 3 ∧ 1 ≤ t.2 ∧ t.2 ≤ 2) ∧
        pixelInBounds (computePixelBounds 10 10 3 2 t.1 t.2) 9 5) ∧
    (computePixelBounds 10 10 3 2 3 2).right = 10 - 1 ∧
    (computePixelBounds 10 10 3 2 3 2).top = 10 - 1 :=
  tile_bounds_partition 10 10 3 2 (by norm_num) (by norm_num) (by norm_num)
    (by norm_num) 9 5 (by norm_num) (by norm_num)

/-- C4: the normalized ray-tracing region computed from pixel bounds
    `(left, right, bottom, top)` on an `image_width × image_height` image
    is passed to the ray-tracing API as
    `(x0, y0, x1, y1) = (left/W, 1 - top/H, right/W, 1 - bottom/H)`
    (Y axis flipped, bottom-up); for bounds `(0, 4, 0, 4)` on a `10×10`
    image the region is `(0.0, 0.6, 0.4, 1.0)`. -/
theorem raytracing_region_args_spec :
    (∀ left right bottom top W H : Int,
        raytracingRegionArgs left right bottom top W H =
          ((left : ℚ) / W, 1 - (top : ℚ) / H, (right : ℚ) / W, 1 - (bottom : ℚ) / H)) ∧
    raytracingRegionArgs 0 4 0 4 10 10 = ((0 : ℚ), 6/10, 4/10, 1) := by
  constructor
  · intro left right bottom top W H; rfl
  · norm_num [raytracingRegionArgs]

/-- C5 counterexample: for the input path `"a//b"` and a rule set whose
    single rule does not match it, `map_path` returns the input string
    unchanged (`"a//b"`), not its separator-normalized form
    (`normalize("a//b") = "a/b"`), refuting the claim
    `map_path(p) = normalize(p)` at this input. -/
theorem map_path_no_match_not_normalized_cex :
    ruleMatches ⟨"POSIX", "/zzz", "/dest"⟩ "a//b" = false ∧
    map_path [⟨"POSIX", "/zzz", "/dest"⟩] (RulesFileInput.unreadable "") "a//b" =
      Except.ok ("a//b", [⟨"POSIX", "/zzz", "/dest"⟩]) ∧
    specNormalize "a//b" = "a/b" ∧ ("a//b" : String) ≠ "a/b" :=
  ⟨rfl, rfl, rfl, by decide⟩

/-- C5 (amended): for every path `p` and every loaded (non-empty) rule
    set in which no rule's normalized source prefix matches `p`,
    `map_path` returns `p` itself, unchanged — not the
    separator-normalized form of `p`. -/
theorem map_path_no_match_identity (rules : List PathMappingRule)
    (file : RulesFileInput) (p : String) (hne : rules ≠ [])
    (h : ∀ r ∈ rules, ruleMatches r p = false) :
    map_path rules file p = Except.ok (p, rules) := by
  have hempty : rules.isEmpty = false := by
    cases rules with
    | nil => exact absurd rfl hne
    | cons a l => rfl
  simp [map_path, hempty, mapPathRules_eq_self_of_no_match rules p h]

/-- Witness for C5's amended theorem at a concrete non-matching input. -/
theorem map_path_no_match_identity_witness :
    map_path [⟨"POSIX", "/zzz", "/dest"⟩] (RulesFileInput.unreadable "") "a//b" =
      Except.ok ("a//b", [⟨"POSIX", "/zzz", "/dest"⟩]) :=
  map_path_no_match_identity [⟨"POSIX", "/zzz", "/dest"⟩]
    (RulesFileInput.unreadable "") "a//b" (by simp) (by decide)

/-- C6 counterexample: for a rules file whose contents are structurally
    malformed (here: `json.load` raises a parse error), loading does NOT
    degrade to a reported failure — the exception propagates out of
    `load_path_mapping_rules`, and a subsequent `map_path` call raises as
    well instead of returning its input unchanged. -/
theorem load_rules_malformed_raises_cex :
    load_path_mapping_rules (RulesFileInput.unparsable "Expecting value") [] =
      Except.error "Expecting value" ∧
    (load_path_mapping_rules (RulesFileInput.unparsable "Expecting value") [] ≠
      Except.ok (false, [])) ∧
    map_path [] (RulesFileInput.unparsable "Expecting value") "/x" =
      Except.error "Expecting value" :=
  ⟨rfl, fun h => Except.noConfusion h, rfl⟩

/-- C6 (amended): only a missing/unreadable rules file (a failing
    `open()`) is caught: loading then reports failure without raising,
    leaves the rule list empty, and subsequent `map_path` calls return
    their input unchanged.  A file that opens but cannot be parsed
    raises, and so does a parsed document whose rule extraction fails —
    a non-dict top level, a missing/null/non-iterable
    `path_mapping_rules` value, or a rule record that is not a dict with
    exactly the three field names: the exception propagates out of both
    `load_path_mapping_rules` and `map_path`.  Not every malformed
    document raises, however: an empty-iterable `path_mapping_rules`
    value (e.g. an empty object) loads successfully as an empty rule
    list, and a rule record with the exact three keys but a non-string
    field value constructs without any runtime type check and also loads
    successfully. -/
theorem load_rules_failure_modes (msg p : String) (data : Json) (e : String)
    (hmal : parseRules data = Except.error e) :
    load_path_mapping_rules (RulesFileInput.unreadable msg) [] = Except.ok (false, []) ∧
    map_path [] (RulesFileInput.unreadable msg) p = Except.ok (p, []) ∧
    load_path_mapping_rules (RulesFileInput.unparsable msg) [] = Except.error msg ∧
    map_path [] (RulesFileInput.unparsable msg) p = Except.error msg ∧
    load_path_mapping_rules (RulesFileInput.parsed data) [] = Except.error e ∧
    map_path [] (RulesFileInput.parsed data) p = Except.error e ∧
    load_path_mapping_rules
      (RulesFileInput.parsed (Json.jobj [("path_mapping_rules", Json.jobj [])])) [] =
      Except.ok (true, []) ∧
    load_path_mapping_rules
      (RulesFileInput.parsed (Json.jobj [("path_mapping_rules", Json.jarr
        [Json.jobj [("source_path_format", Json.jnum 5),
          ("source_path", Json.jstr "/a"),
          ("destination_path", Json.jstr "/b")]])])) [] =
      Except.ok (true, [⟨"<int>", "/a", "/b"⟩]) := by
  refine ⟨rfl, rfl, rfl, rfl, ?_, ?_, rfl, rfl⟩ <;>
    simp [load_path_mapping_rules, map_path, hmal]

/-- Witness for C6's amended theorem at a concrete malformed document. -/
theorem load_rules_failure_modes_witness :
    load_path_mapping_rules (RulesFileInput.unreadable "no file") [] = Except.ok (false, []) ∧
    map_path [] (RulesFileInput.unreadable "no file") "/x" = Except.ok ("/x", []) ∧
    load_path_mapping_rules (RulesFileInput.unparsable "no file") [] = Except.error "no file" ∧
    map_path [] (RulesFileInput.unparsable "no file") "/x" = Except.error "no file" ∧
    load_path_mapping_rules (RulesFileInput.parsed (Json.jstr "oops")) [] =
      Except.error "AttributeError: loaded document has no attribute get" ∧
    map_path [] (RulesFileInput.parsed (Json.jstr "oops")) "/x" =
      Except.error "AttributeError: loaded document has no attribute get" ∧
    load_path_mapping_rules
      (RulesFileInput.parsed (Json.jobj [("path_mapping_rules", Json.jobj [])])) [] =
      Except.ok (true, []) ∧
    load_path_mapping_rules
      (RulesFileInput.parsed (Json.jobj [("path_mapping_rules", Json.jarr
        [Json.jobj [("source_path_format", Json.jnum 5),
          ("source_path", Json.jstr "/a"),
          ("destination_path", Json.jstr "/b")]])])) [] =
      Except.ok (true, [⟨"<int>", "/a", "/b"⟩]) :=
  load_rules_failure_modes "no file" "/x" (Json.jstr "oops")
    "AttributeError: loaded document has no attribute get" rfl

/-- C7: prefix matching in `map_path` is case-insensitive for a rule
    whose `source_path_format` is WINDOWS (both sides are lower-cased)
    and case-sensitive for a POSIX rule; concretely, a WINDOWS rule with
    source `"C:\\Data"` matches input `"c:\\data\\x.vpb"` while the
    otherwise-identical POSIX rule with source `"/Data"` does not match
    `"/data/x.vpb"`. -/
theorem rule_match_case_sensitivity :
    (∀ src dst p : String,
        ruleMatches ⟨"WINDOWS", src, dst⟩ p =
          pyStartswith (pyLower (specNormalize p)) (pyLower (specNormalize src))) ∧
    (∀ src dst p : String,
        ruleMatches ⟨"POSIX", src, dst⟩ p =
          pyStartswith (specNormalize p) (specNormalize src)) ∧
    ruleMatches ⟨"WINDOWS", "C:\\Data", "/dest"⟩ "c:\\data\\x.vpb" = true ∧
    ruleMatches ⟨"POSIX", "/Data", "/dest"⟩ "/data/x.vpb" = false := by
  refine ⟨?_, ?_, by decide, by decide⟩ <;>
    · intro src dst p
      simp [ruleMatches, specNormalize]

/-- C8: for every input path and rule list of the shape
    `pre ++ [r] ++ post` in which no rule of `pre` matches and `r`
    matches, `map_path` returns exactly the rewrite prescribed by `r` —
    the first matching rule in list order — regardless of any later
    matching rules in `post`. -/
theorem map_path_first_match_wins (p : String) (file : RulesFileInput)
    (pre post : List PathMappingRule) (r : PathMappingRule)
    (hpre : ∀ r2 ∈ pre, ruleMatches r2 p = false)
    (hr : ruleMatches r p = true) :
    map_path (pre ++ r :: post) file p =
      Except.ok (applyRule r p, pre ++ r :: post) := by
  have hloop : mapPathRules (pre ++ r :: post) p = applyRule r p := by
    induction pre with
    | nil => simp [mapPathRules, hr]
    | cons a l ih =>
        simp only [List.cons_append, mapPathRules]
        rw [hpre a (by simp)]
        simp only [Bool.false_eq_true, if_false]
        exact ih (fun r2 h2 => hpre r2 (by simp [h2]))
  have hempty : (pre ++ r :: post).isEmpty = false := by
    cases pre <;> rfl
  simp [map_path, hempty, hloop]

/-- Witness for C8 at a concrete pair of overlapping rules. -/
theorem map_path_first_match_wins_witness :
    map_path [⟨"POSIX", "/data", "/mnt/a"⟩, ⟨"POSIX", "/data", "/mnt/b"⟩]
      (RulesFileInput.unreadable "") "/data/x.vpb" =
      Except.ok (applyRule ⟨"POSIX", "/data", "/mnt/a"⟩ "/data/x.vpb",
        [⟨"POSIX", "/data", "/mnt/a"⟩, ⟨"POSIX", "/data", "/mnt/b"⟩]) :=
  map_path_first_match_wins "/data/x.vpb" (RulesFileInput.unreadable "")
    [] [⟨"POSIX", "/data", "/mnt/b"⟩] ⟨"POSIX", "/data", "/mnt/a"⟩
    (by simp) (by decide)

/-- C10: the output filename computed at renderer construction is
    `OutputDir` (stripped, backslashes replaced by forward slashes)
    joined with `OutputFileNamePrefix` (stripped), followed — when
    `RegionRendering` is set — by the segment
    `_region_{TileNumberY}x{TileNumberX}_{NumYTiles}x{NumXTiles}`, then
    by `.` and the lowercased, stripped `OutputFormat`; consequently two
    tasks of the same tile grid with different `(TileNumberX,
    TileNumberY)` always produce distinct output filenames. -/
theorem output_filename_structure_distinct :
    (∀ rp : RenderParameters, output_filename rp =
        posixJoin (pyReplaceChar '\\' '/' (pyStrip rp.OutputDir))
          (pyStrip rp.OutputFileNameStem ++
            (if rp.RegionRendering then
              "_region_" ++ intStr rp.TileNumberY ++ "x" ++ intStr rp.TileNumberX
                ++ "_" ++ intStr rp.NumYTiles ++ "x" ++ intStr rp.NumXTiles
             else "") ++ "." ++ pyLower (pyStrip rp.OutputFormat))) ∧
    (∀ rp rp2 : RenderParameters,
      rp.RegionRendering = true → rp2.RegionRendering = true →
      rp.OutputDir = rp2.OutputDir →
      rp.OutputFileNameStem = rp2.OutputFileNameStem →
      rp.OutputFormat = rp2.OutputFormat →
      rp.NumXTiles = rp2.NumXTiles → rp.NumYTiles = rp2.NumYTiles →
      (rp.TileNumberX, rp.TileNumberY) ≠ (rp2.TileNumberX, rp2.TileNumberY) →
      output_filename rp ≠ output_filename rp2) := by
  constructor
  · intro rp; rfl
  · intro rp rp2 hR hR2 hDir hStem hFmt hNX hNY hTile heq
    unfold output_filename at heq
    rw [hDir, hStem, hFmt, hNX, hNY, hR, hR2, if_pos rfl, if_pos rfl] at heq
    have hh := name_head_eq (pyStrip rp2.OutputFileNameStem)
      ("_region_" ++ intStr rp.TileNumberY ++ "x" ++ intStr rp.TileNumberX
        ++ "_" ++ intStr rp2.NumYTiles ++ "x" ++ intStr rp2.NumXTiles)
      ("_region_" ++ intStr rp2.TileNumberY ++ "x" ++ intStr rp2.TileNumberX
        ++ "_" ++ intStr rp2.NumYTiles ++ "x" ++ intStr rp2.NumXTiles)
      (pyLower (pyStrip rp2.OutputFormat)) rfl rfl
    have hname := posixJoin_right_inj _ _ _ hh heq
    have hdata := congrArg String.data hname
    simp only [String.data_append, intStr_data, List.append_assoc,
      List.cons_append, List.singleton_append, List.nil_append] at hdata
    have h2 := List.append_cancel_left hdata
    simp only [List.cons.injEq, true_and] at h2
    obtain ⟨hTY, h4⟩ := append_sep_inj 'x' _ _ _ _
      (intDecimal_not_mem (by decide)) (intDecimal_not_mem (by decide)) h2
    obtain ⟨hTX, _⟩ := append_sep_inj '_' _ _ _ _
      (intDecimal_not_mem (by decide)) (intDecimal_not_mem (by decide)) h4
    exact hTile (by
      rw [Prod.mk.injEq]
      exact ⟨intDecimal_inj hTX, intDecimal_inj hTY⟩)

/-- Witness for C10: two tasks of the same 3×2 grid, tiles (2,1) and
    (1,1), get distinct output filenames. -/
theorem output_filename_structure_distinct_witness :
    output_filename rpTileA ≠ output_filename rpTileB :=
  output_filename_structure_distinct.2 rpTileA rpTileB
    rfl rfl rfl rfl rfl rfl rfl (by decide)

end VRED
